import Mathlib

/-!
Verification of the console-error-scanner scan engine.

This file gives a shallow embedding of the data model
(`models/scan_result.py`, `models/whitelist.py`) and of the scan
orchestration engine (`services/scanner.py`) of the
console-error-scanner repository, and proves or refutes the frozen
specification claims about them.
-/

namespace ConsoleErrorScanner

/-- Embeds `ErrorType` from `models/scan_result.py`: the kind of a captured error. -/
inductive ErrorType where
  | CONSOLE_ERROR
  | CONSOLE_WARNING
  | HTTP_404
  | HTTP_4XX
  | HTTP_5XX
deriving DecidableEq

/-- Embeds `PageStatus` from `models/scan_result.py`: lifecycle state of a scanned page. -/
inductive PageStatus where
  | PENDING
  | SCANNING
  | OK
  | WARNING
  | ERROR
  | TIMEOUT
deriving DecidableEq

/-- Embeds the `PageError` dataclass from `models/scan_result.py`. -/
structure PageError where
  error_type : ErrorType
  message : String
  source : String := ""
  line_number : Nat := 0
  whitelisted : Bool := false
deriving DecidableEq

/-- Embeds the `ScanResult` dataclass from `models/scan_result.py`
(the fields read or written by the scan engine). -/
structure ScanResult where
  url : String
  status : PageStatus := .PENDING
  http_status_code : Nat := 0
  load_time_ms : Nat := 0
  errors : List PageError := []
  retry_count : Nat := 0
deriving DecidableEq

/-- Embeds `ScanResult.console_error_count`: non-whitelisted `CONSOLE_ERROR` entries. -/
def ScanResult.console_error_count (r : ScanResult) : Nat :=
  r.errors.countP (fun e => e.error_type == .CONSOLE_ERROR && !e.whitelisted)

/-- Embeds `ScanResult.console_warning_count`: non-whitelisted `CONSOLE_WARNING` entries. -/
def ScanResult.console_warning_count (r : ScanResult) : Nat :=
  r.errors.countP (fun e => e.error_type == .CONSOLE_WARNING && !e.whitelisted)

/-- Embeds `ScanResult.http_404_count`: non-whitelisted `HTTP_404` entries. -/
def ScanResult.http_404_count (r : ScanResult) : Nat :=
  r.errors.countP (fun e => e.error_type == .HTTP_404 && !e.whitelisted)

/-- Embeds `ScanResult.http_4xx_count`: non-whitelisted `HTTP_4XX` entries. -/
def ScanResult.http_4xx_count (r : ScanResult) : Nat :=
  r.errors.countP (fun e => e.error_type == .HTTP_4XX && !e.whitelisted)

/-- Embeds `ScanResult.http_5xx_count`: non-whitelisted `HTTP_5XX` entries. -/
def ScanResult.http_5xx_count (r : ScanResult) : Nat :=
  r.errors.countP (fun e => e.error_type == .HTTP_5XX && !e.whitelisted)

/-- Membership in `ScanResult._ERROR_TYPES`: the kinds that count as real errors
(everything except `CONSOLE_WARNING`). -/
def inErrorTypes (t : ErrorType) : Bool :=
  t == .CONSOLE_ERROR || t == .HTTP_404 || t == .HTTP_4XX || t == .HTTP_5XX

/-- Embeds `ScanResult.has_errors`: some non-whitelisted entry of a real error kind. -/
def ScanResult.has_errors (r : ScanResult) : Bool :=
  r.errors.any (fun e => inErrorTypes e.error_type && !e.whitelisted)

/-- Embeds `ScanResult.has_issues`: some non-whitelisted entry of any kind. -/
def ScanResult.has_issues (r : ScanResult) : Bool :=
  r.errors.any (fun e => !e.whitelisted)

/-- Embeds `ScanResult.ignored_count`: number of whitelisted entries. -/
def ScanResult.ignored_count (r : ScanResult) : Nat :=
  r.errors.countP (fun e => e.whitelisted)

/-- Embeds `ScanResult.total_error_count`: number of non-whitelisted entries. -/
def ScanResult.total_error_count (r : ScanResult) : Nat :=
  r.errors.countP (fun e => !e.whitelisted)

/-- Fuel-driven glob matching on character lists: `globMatchFuel fuel pat s`
decides whether pattern `pat` (with the wildcards `*` = any run of characters
and `?` = exactly one character) matches the whole string `s`.  This models
Python's `fnmatch.fnmatch` as used by `models/whitelist.py`, restricted to the
`*` and `?` wildcards (bracket character classes are not modelled).  The fuel
argument only drives the recursion; `pat.length + s.length + 1` always
suffices because every recursive call shrinks `pat.length + s.length`. -/
def globMatchFuel : Nat → List Char → List Char → Bool
  | 0, _, _ => false
  | fuel + 1, pat, s =>
    match pat, s with
    | [], [] => true
    | [], _ :: _ => false
    | '*' :: ps, [] => globMatchFuel fuel ps []
    | '*' :: ps, c :: cs =>
        globMatchFuel fuel ps (c :: cs) || globMatchFuel fuel ('*' :: ps) cs
    | '?' :: _, [] => false
    | '?' :: ps, _ :: cs => globMatchFuel fuel ps cs
    | _ :: _, [] => false
    | p :: ps, c :: cs => (p == c) && globMatchFuel fuel ps cs

/-- Wildcard match of a pattern against a name, both given as strings;
models `fnmatch.fnmatch(name, pattern)` from the Python standard library. -/
def fnmatchStr (name pattern : String) : Bool :=
  globMatchFuel (pattern.data.length + name.data.length + 1) pattern.data name.data

/-- Embeds the `Whitelist` class from `models/whitelist.py`: a list of
wildcard patterns plus the path it was loaded from. -/
structure Whitelist where
  patterns : List String
  path : String := ""

/-- Embeds `Whitelist.is_whitelisted`: a message matches when it is non-empty,
there are patterns, and some pattern matches case-insensitively (both sides are
lowercased before `fnmatch`). -/
def Whitelist.is_whitelisted (w : Whitelist) (message : String) : Bool :=
  if message.isEmpty || w.patterns.isEmpty then false
  else w.patterns.any (fun pattern => fnmatchStr message.toLower pattern.toLower)

/-- Embeds the loop body of `Whitelist.apply` acting on the error list: each
entry that is not yet whitelisted and whose message matches gets its
`whitelisted` flag set, and the marked entries are counted.  The Python loop
walks the list front to back mutating in place; this pure rendering returns
the updated list together with the count. -/
def Whitelist.applyErrors (w : Whitelist) : List PageError → List PageError × Nat
  | [] => ([], 0)
  | e :: rest =>
    let tail := w.applyErrors rest
    if !e.whitelisted && w.is_whitelisted e.message then
      ({ e with whitelisted := true } :: tail.1, tail.2 + 1)
    else
      (e :: tail.1, tail.2)

/-- Embeds `Whitelist.apply` from `models/whitelist.py`: marks matched errors of
a `ScanResult` as whitelisted and returns the updated result with the number of
newly marked entries. -/
def Whitelist.apply (w : Whitelist) (r : ScanResult) : ScanResult × Nat :=
  ({ r with errors := (w.applyErrors r.errors).1 }, (w.applyErrors r.errors).2)

/-- Decides whether the first character list begins with the second one;
helper for modelling Python's `str.startswith`. -/
def charsStartWith : List Char → List Char → Bool
  | _, [] => true
  | [], _ :: _ => false
  | c :: cs, p :: ps => c == p && charsStartWith cs ps

/-- Models Python's `text.startswith(p)` on strings. -/
def strStartsWith (text p : String) : Bool :=
  charsStartWith text.data p.data

/-- Decides whether the second character list occurs as a contiguous run inside
the first one; helper for modelling Python's `needle in haystack`. -/
def charsContainSub : List Char → List Char → Bool
  | hay, needle =>
    charsStartWith hay needle ||
      match hay with
      | [] => false
      | _ :: rest => charsContainSub rest needle

/-- Models Python's substring test `needle in hay` on strings. -/
def strContainsSub (hay needle : String) : Bool :=
  charsContainSub hay.data needle.data

/-- Models Python's `str.lower` (ASCII case folding, which covers every string
the scanner compares). -/
def strLower (s : String) : String :=
  ⟨s.data.map Char.toLower⟩

/-- Embeds the `on_console` handler of `Scanner._do_scan_page`
(`services/scanner.py`, lines 299–321) as a function from one console message
event to the entry it appends, if any: messages whose type is not captured at
the configured level are dropped, messages restating a resource load failure
(text beginning with `Failed to load resource:`) are dropped, and otherwise an
entry of kind `CONSOLE_ERROR` (for type `error`) or `CONSOLE_WARNING` is built
from the message text and location. -/
def on_console (captured_types : List String) (msg_type text location_url : String)
    (location_line : Nat) : Option PageError :=
  if !captured_types.contains msg_type then none
  else if strStartsWith text "Failed to load resource:" then none
  else some
    { error_type := if msg_type = "error" then .CONSOLE_ERROR else .CONSOLE_WARNING,
      message := text,
      source := location_url,
      line_number := location_line }

/-- Embeds the `on_pageerror` handler (`services/scanner.py`, lines 328–335):
every uncaught page exception yields a `CONSOLE_ERROR` entry; a falsy error
object (modelled by the empty string) is rendered as `(unknown error)`. -/
def on_pageerror (msg : String) : Option PageError :=
  some
    { error_type := .CONSOLE_ERROR,
      message := if msg = "" then "(unknown error)" else msg,
      source := "",
      line_number := 0 }

/-- Embeds the `on_response` handler (`services/scanner.py`, lines 340–365),
restricted to the entry it appends for one HTTP response event (the handler's
side write of `http_status_code` for document responses is modelled separately
in `do_scan_page`): status 404 yields `HTTP_404`, other 4xx yield `HTTP_4XX`,
5xx yield `HTTP_5XX`, anything else appends nothing. -/
def on_response (status : Nat) (url : String) : Option PageError :=
  if status = 404 then
    some { error_type := .HTTP_404, message := "HTTP 404: " ++ url, source := url }
  else if 400 ≤ status ∧ status < 500 then
    some { error_type := .HTTP_4XX, message := "HTTP " ++ toString status ++ ": " ++ url,
           source := url }
  else if 500 ≤ status ∧ status < 600 then
    some { error_type := .HTTP_5XX, message := "HTTP " ++ toString status ++ ": " ++ url,
           source := url }
  else none

/-- Embeds the `on_request_failed` handler (`services/scanner.py`,
lines 370–385): a missing failure text (falsy, modelled by the empty string)
or an aborted navigation (`net::ERR_ABORTED` occurring in the failure text)
appends nothing, every other failed request yields a `CONSOLE_WARNING` entry. -/
def on_request_failed (failure url : String) : Option PageError :=
  if failure = "" then none
  else if strContainsSub failure "net::ERR_ABORTED" then none
  else some
    { error_type := .CONSOLE_WARNING,
      message := "Request failed: " ++ failure ++ " - " ++ url,
      source := url,
      line_number := 0 }

/-- Embeds the `on_cdp_log` handler (`services/scanner.py`, lines 262–292):
`security`/`violation` entries yield CSP-violation warnings, `intervention`
entries yield intervention warnings, `deprecation` entries yield warnings only
at console level `all`, everything else appends nothing. -/
def on_cdp_log (console_level entry_source text url : String) (line : Nat) :
    Option PageError :=
  if entry_source = "security" ∨ entry_source = "violation" then
    some { error_type := .CONSOLE_WARNING, message := "CSP violation: " ++ text,
           source := url, line_number := line }
  else if entry_source = "intervention" then
    some { error_type := .CONSOLE_WARNING, message := "Intervention: " ++ text,
           source := url, line_number := line }
  else if entry_source = "deprecation" then
    if console_level = "all" then
      some { error_type := .CONSOLE_WARNING, message := "Deprecation: " ++ text,
             source := url, line_number := line }
    else none
  else none

/-- Embeds the `on_cdp_issue` handler (`services/scanner.py`, lines 229–258):
a `ContentSecurityPolicyIssue` audit event yields a `CONSOLE_WARNING` entry
whose message names the violated directive (and the blocked URL when present)
and whose source falls back from the source location URL to the blocked URL. -/
def on_cdp_issue (code directive blocked_url : String) (is_report_only : Bool)
    (source_url : String) (source_line : Nat) : Option PageError :=
  if code = "ContentSecurityPolicyIssue" then
    some
      { error_type := .CONSOLE_WARNING,
        message :=
          (if is_report_only then "CSP report-only" else "CSP violation")
            ++ ": \x27" ++ directive ++ "\x27"
            ++ (if blocked_url = "" then "" else " blocked " ++ blocked_url),
        source := if source_url = "" then blocked_url else source_url,
        line_number := source_line }
  else none

/-- One raw browser event delivered to a capture handler registered in
`Scanner._do_scan_page`, tagged by the channel it arrives on. -/
inductive CaptureEvent where
  | console (msg_type text location_url : String) (location_line : Nat)
  | pageerror (msg : String)
  | response (status : Nat) (url : String)
  | requestfailed (failure url : String)
  | cdpLog (entry_source text url : String) (line : Nat)
  | cdpIssue (code directive blocked_url : String) (is_report_only : Bool)
      (source_url : String) (source_line : Nat)
deriving DecidableEq

/-- Dispatches one captured event to its handler, yielding the entry that
handler appends to `result.errors`, if any. -/
def processEvent (captured_types : List String) (console_level : String) :
    CaptureEvent → Option PageError
  | .console msg_type text location_url location_line =>
      on_console captured_types msg_type text location_url location_line
  | .pageerror msg => on_pageerror msg
  | .response status url => on_response status url
  | .requestfailed failure url => on_request_failed failure url
  | .cdpLog entry_source text url line =>
      on_cdp_log console_level entry_source text url line
  | .cdpIssue code directive blocked_url is_report_only source_url source_line =>
      on_cdp_issue code directive blocked_url is_report_only source_url source_line

/-- The entries appended to `result.errors` by the capture handlers for a
sequence of events delivered during one visit attempt, in delivery order. -/
def capturedEntries (captured_types : List String) (console_level : String)
    (evs : List CaptureEvent) : List PageError :=
  evs.filterMap (processEvent captured_types console_level)

/-- The deduplication key used at lines 411–419 of `services/scanner.py`:
the `(error_type, message, source)` triple of an entry. -/
def errKey (e : PageError) : ErrorType × String × String :=
  (e.error_type, e.message, e.source)

/-- Embeds the deduplication loop at lines 411–419 of `services/scanner.py`,
carrying the `seen` set of keys encountered so far: an entry whose key was
already seen is dropped, otherwise it is kept and its key recorded. -/
def dedupAux (seen : List (ErrorType × String × String)) :
    List PageError → List PageError
  | [] => []
  | e :: rest =>
    if errKey e ∈ seen then dedupAux seen rest
    else e :: dedupAux (errKey e :: seen) rest

/-- Deduplication of a full error list, starting from an empty `seen` set, as
performed at the end of a completed visit attempt. -/
def dedupErrors (l : List PageError) : List PageError :=
  dedupAux [] l

/-- Embeds lines 421–426 of `services/scanner.py`: the final status derivation
at the end of a completed visit attempt — `ERROR` when `has_errors`, else
`WARNING` when `has_issues`, else `OK`. -/
def finalize_status (r : ScanResult) : ScanResult :=
  if r.has_errors then { r with status := .ERROR }
  else if r.has_issues then { r with status := .WARNING }
  else { r with status := .OK }

/-- Modelled from the spec, for comparison with `finalize_status`: the status
derivation as the spec words it — a pure function of the deduplicated error
list alone, ignoring the suppressed/whitelisted flag: `ERROR` if any
non-warning kind is present, else `WARNING` if any warning-kind entry is
present, else `OK`. -/
def specDeriveStatus (errors : List PageError) : PageStatus :=
  if errors.any (fun e => inErrorTypes e.error_type) then .ERROR
  else if errors.any (fun e => e.error_type == .CONSOLE_WARNING) then .WARNING
  else .OK

/-- Embeds `Scanner._do_scan_page` for a completed visit attempt, as a function
of the events delivered to the capture handlers, the main document's HTTP
status and the measured load time: the handlers have appended their entries to
the existing `errors` list, the list is deduplicated, and the final status is
derived.  Navigation, consent handling and context teardown have no effect on
the result record beyond these fields. -/
def do_scan_page (captured_types : List String) (console_level : String)
    (evs : List CaptureEvent) (http_status load_time : Nat) (r : ScanResult) :
    ScanResult :=
  finalize_status
    { r with
      errors := dedupErrors (r.errors ++ capturedEntries captured_types console_level evs),
      http_status_code := http_status,
      load_time_ms := load_time }

/-- A visit attempt of `Scanner._do_scan_page` that is abandoned by an
exception: the handlers have already appended the entries for the events
delivered before the failure directly to `result.errors` (there is no scratch
buffer), and neither deduplication nor status derivation is reached. -/
def do_scan_page_failed (captured_types : List String) (console_level : String)
    (evs : List CaptureEvent) (r : ScanResult) : ScanResult :=
  { r with errors := r.errors ++ capturedEntries captured_types console_level evs }

/-- `Scanner.MAX_RETRIES` from `services/scanner.py`. -/
def MAX_RETRIES : Nat := 3

/-- The outcome of one visit attempt: either the attempt completes after
delivering `evs` to the handlers (with the document status and load time), or
it raises after delivering `evs`, with `msg` the text of the exception. -/
inductive AttemptOutcome where
  | ok (evs : List CaptureEvent) (http_status load_time : Nat)
  | fail (evs : List CaptureEvent) (msg : String)

/-- Embeds the retry loop of `Scanner._scan_single_page`
(`services/scanner.py`, lines 149–178), also counting the attempts performed:
attempt `attempt` is run; on completion the loop returns; on failure
`retry_count` is set to `attempt + 1` and, if attempts remain
(`attempt < MAX_RETRIES - 1`), the loop continues after backoff, else the
status is finalized as `TIMEOUT` when the lowered failure message contains
`timeout` and as `ERROR` otherwise.  The fuel argument is `MAX_RETRIES` minus
the current attempt index and only drives the recursion. -/
def scanLoopGo (captured_types : List String) (console_level : String)
    (outcomes : Nat → AttemptOutcome) :
    Nat → Nat → ScanResult → ScanResult × Nat
  | 0, _, r => (r, 0)
  | fuel + 1, attempt, r =>
    match outcomes attempt with
    | .ok evs hs lt => (do_scan_page captured_types console_level evs hs lt r, 1)
    | .fail evs msg =>
      let r1 :=
        { do_scan_page_failed captured_types console_level evs r with
          retry_count := attempt + 1 }
      if attempt < MAX_RETRIES - 1 then
        let rec1 := scanLoopGo captured_types console_level outcomes fuel (attempt + 1) r1
        (rec1.1, rec1.2 + 1)
      else
        ({ r1 with
           status := if strContainsSub (strLower msg) "timeout" then .TIMEOUT else .ERROR },
         1)

/-- Embeds `Scanner._scan_single_page`: the per-page retry pipeline, returning
the final result record together with the number of visit attempts performed. -/
def scan_single_page (captured_types : List String) (console_level : String)
    (outcomes : Nat → AttemptOutcome) (r : ScanResult) : ScanResult × Nat :=
  scanLoopGo captured_types console_level outcomes MAX_RETRIES 0 r

/-- Control point of one `scan_with_semaphore` task in `Scanner.scan_urls`:
`idle` before its first cancellation check, `waiting` while blocked on the
semaphore, `running k` while holding the semaphore and performing visit
attempt `k` of its retry pipeline, `done` after releasing the semaphore, and
`exited` after returning early because the cancellation flag was set. -/
inductive TaskPC where
  | idle
  | waiting
  | running (attempt : Nat)
  | done
  | exited
deriving DecidableEq

/-- Whether a control point holds the semaphore inside the retry pipeline. -/
def TaskPC.holdsSem : TaskPC → Bool
  | .running _ => true
  | _ => false

/-- One scheduled task of `Scanner.scan_urls` paired with the `status` field of
the `ScanResult` it owns. -/
structure SchedTask where
  pc : TaskPC
  status : PageStatus
deriving DecidableEq

/-- The scheduler state of one run of `Scanner.scan_urls`: the task list, the
shared `_cancelled` flag, and the number of free semaphore slots. -/
structure SchedState where
  tasks : List SchedTask
  cancelled : Bool
  semAvail : Nat
deriving DecidableEq

/-- The interleaving semantics of `Scanner.scan_urls` (lines 96–116) together
with `Scanner.cancel` and the retry loop of `_scan_single_page`.  Each
constructor is one atomic block of a task between suspension points, acting on
one task singled out by a `pre ++ task :: post` decomposition of the task list:

* `cancel` — `Scanner.cancel` sets the `_cancelled` flag;
* `start` — a task begins, passes the first `if self._cancelled` check
  (flag unset) and proceeds to block on the semaphore;
* `startCancelled` — a task begins with the flag set and returns at once;
* `acquire` — a waiting task acquires a free semaphore slot, passes the second
  `if self._cancelled` check (flag unset), marks its item `SCANNING` and
  enters the retry pipeline (no suspension point separates the check, the
  status write and the pipeline entry);
* `acquireCancelled` — a waiting task acquires a slot but finds the flag set and
  returns, releasing the slot;
* `retryNext` — attempt `k` of an in-flight task fails with attempts left, and
  the pipeline starts attempt `k+1` after backoff; the loop body contains no
  cancellation check, so this step is enabled regardless of the flag;
* `finishAttempt` — the current attempt completes and `_do_scan_page`
  finalizes the status to `OK`, `WARNING` or `ERROR`; the task releases its
  slot;
* `finishExhausted` — the final attempt (`MAX_RETRIES - 1`) fails and the
  pipeline finalizes the status to `TIMEOUT` or `ERROR`; the task releases its
  slot. -/
inductive SchedStep : SchedState → SchedState → Prop where
  | cancel (ts : List SchedTask) (c : Bool) (sem : Nat) :
      SchedStep ⟨ts, c, sem⟩ ⟨ts, true, sem⟩
  | start (pre post : List SchedTask) (st : PageStatus) (sem : Nat) :
      SchedStep ⟨pre ++ ⟨.idle, st⟩ :: post, false, sem⟩
        ⟨pre ++ ⟨.waiting, st⟩ :: post, false, sem⟩
  | startCancelled (pre post : List SchedTask) (st : PageStatus) (sem : Nat) :
      SchedStep ⟨pre ++ ⟨.idle, st⟩ :: post, true, sem⟩
        ⟨pre ++ ⟨.exited, st⟩ :: post, true, sem⟩
  | acquire (pre post : List SchedTask) (st : PageStatus) (sem : Nat) :
      SchedStep ⟨pre ++ ⟨.waiting, st⟩ :: post, false, sem + 1⟩
        ⟨pre ++ ⟨.running 0, .SCANNING⟩ :: post, false, sem⟩
  | acquireCancelled (pre post : List SchedTask) (st : PageStatus) (sem : Nat) :
      SchedStep ⟨pre ++ ⟨.waiting, st⟩ :: post, true, sem + 1⟩
        ⟨pre ++ ⟨.exited, st⟩ :: post, true, sem + 1⟩
  | retryNext (pre post : List SchedTask) (st : PageStatus) (k : Nat) (c : Bool)
      (sem : Nat) (hk : k + 1 < MAX_RETRIES) :
      SchedStep ⟨pre ++ ⟨.running k, st⟩ :: post, c, sem⟩
        ⟨pre ++ ⟨.running (k + 1), st⟩ :: post, c, sem⟩
  | finishAttempt (pre post : List SchedTask) (st : PageStatus) (k : Nat) (c : Bool)
      (sem : Nat) (fstat : PageStatus)
      (hterm : fstat = .OK ∨ fstat = .WARNING ∨ fstat = .ERROR) :
      SchedStep ⟨pre ++ ⟨.running k, st⟩ :: post, c, sem⟩
        ⟨pre ++ ⟨.done, fstat⟩ :: post, c, sem + 1⟩
  | finishExhausted (pre post : List SchedTask) (st : PageStatus) (c : Bool)
      (sem : Nat) (fstat : PageStatus)
      (hterm : fstat = .TIMEOUT ∨ fstat = .ERROR) :
      SchedStep ⟨pre ++ ⟨.running (MAX_RETRIES - 1), st⟩ :: post, c, sem⟩
        ⟨pre ++ ⟨.done, fstat⟩ :: post, c, sem + 1⟩

/-- The initial scheduler state of `Scanner.scan_urls` for `n` work items and
concurrency limit `conc`: every task is created `idle`, every item is
`PENDING`, the flag is reset (`self._cancelled = False`) and all semaphore
slots are free. -/
def initState (conc n : Nat) : SchedState :=
  ⟨List.replicate n ⟨.idle, .PENDING⟩, false, conc⟩

/-- The states a run of `Scanner.scan_urls` with concurrency `conc` and `n`
work items can reach. -/
def Reach (conc n : Nat) (s : SchedState) : Prop :=
  Relation.ReflTransGen SchedStep (initState conc n) s

/-- Number of tasks whose item currently holds `SCANNING` status. -/
def scanningCount (ts : List SchedTask) : Nat :=
  ts.countP (fun t => t.status == .SCANNING)

/-- Number of tasks currently inside the semaphore-guarded retry pipeline. -/
def runningCount (ts : List SchedTask) : Nat :=
  ts.countP (fun t => t.pc.holdsSem)

/-- Number of tasks whose item is `SCANNING` although the task is not inside
the retry pipeline (the concurrency invariant keeps this at zero). -/
def strayCount (ts : List SchedTask) : Nat :=
  ts.countP (fun t => t.status == .SCANNING && !t.pc.holdsSem)

/-- The inductive invariant of the scheduler: the tasks inside the pipeline
and the free semaphore slots partition the `conc` slots, and only tasks inside
the pipeline hold `SCANNING` status. -/
def SchedInv (conc : Nat) (s : SchedState) : Prop :=
  runningCount s.tasks + s.semAvail = conc ∧ strayCount s.tasks = 0

end ConsoleErrorScanner

namespace ConsoleErrorScanner

/-- Counting helper: the per-kind non-whitelisted counts partition the
non-whitelisted count, at the level of raw error lists. -/
theorem countP_partition_list (l : List PageError) :
    l.countP (fun e => !e.whitelisted) =
      l.countP (fun e => e.error_type == .CONSOLE_ERROR && !e.whitelisted)
        + l.countP (fun e => e.error_type == .CONSOLE_WARNING && !e.whitelisted)
        + l.countP (fun e => e.error_type == .HTTP_404 && !e.whitelisted)
        + l.countP (fun e => e.error_type == .HTTP_4XX && !e.whitelisted)
        + l.countP (fun e => e.error_type == .HTTP_5XX && !e.whitelisted) := by
  induction l with
  | nil => rfl
  | cons e t ih =>
    simp only [List.countP_cons]
    cases he : e.error_type <;> cases hw : e.whitelisted <;> simp [he, hw] <;> omega

/-- Claim C9: for every `ScanResult`, `total_error_count` is the sum of the five
kind-specific non-whitelisted counts — the five kinds partition the error set. -/
theorem total_error_count_partition (r : ScanResult) :
    r.total_error_count =
      r.console_error_count + r.console_warning_count + r.http_404_count
        + r.http_4xx_count + r.http_5xx_count := by
  unfold ScanResult.total_error_count ScanResult.console_error_count
    ScanResult.console_warning_count ScanResult.http_404_count
    ScanResult.http_4xx_count ScanResult.http_5xx_count
  exact countP_partition_list r.errors

/-- `Whitelist.applyErrors` relates each input entry to the corresponding output
entry: the output is either the unchanged entry or the entry with its
`whitelisted` flag freshly set. -/
theorem applyErrors_pointwise (w : Whitelist) (l : List PageError) :
    List.Forall₂
      (fun a b => b = a ∨ (a.whitelisted = false ∧ b = { a with whitelisted := true }))
      l (w.applyErrors l).1 := by
  induction l with
  | nil => exact List.Forall₂.nil
  | cons e rest ih =>
    cases hc : (!e.whitelisted && w.is_whitelisted e.message) with
    | false =>
      have h1 : (w.applyErrors (e :: rest)).1 = e :: (w.applyErrors rest).1 := by
        simp [Whitelist.applyErrors, hc]
      rw [h1]
      exact List.Forall₂.cons (Or.inl rfl) ih
    | true =>
      have hw : e.whitelisted = false := by
        cases hwe : e.whitelisted
        · rfl
        · rw [hwe] at hc; simp at hc
      have h1 : (w.applyErrors (e :: rest)).1
          = { e with whitelisted := true } :: (w.applyErrors rest).1 := by
        simp [Whitelist.applyErrors, hc]
      rw [h1]
      exact List.Forall₂.cons (Or.inr ⟨hw, rfl⟩) ih

/-- `Whitelist.applyErrors` returns exactly the number of entries it newly
marks: the returned count plus the number of already-whitelisted entries equals
the number of whitelisted entries afterwards. -/
theorem applyErrors_count (w : Whitelist) (l : List PageError) :
    (w.applyErrors l).2 + l.countP (fun e => e.whitelisted)
      = (w.applyErrors l).1.countP (fun e => e.whitelisted) := by
  induction l with
  | nil => rfl
  | cons e rest ih =>
    cases hc : (!e.whitelisted && w.is_whitelisted e.message) with
    | false =>
      have h1 : (w.applyErrors (e :: rest)).1 = e :: (w.applyErrors rest).1 := by
        simp [Whitelist.applyErrors, hc]
      have h2 : (w.applyErrors (e :: rest)).2 = (w.applyErrors rest).2 := by
        simp [Whitelist.applyErrors, hc]
      rw [h1, h2, List.countP_cons, List.countP_cons]
      omega
    | true =>
      have hw : e.whitelisted = false := by
        cases hwe : e.whitelisted
        · rfl
        · rw [hwe] at hc; simp at hc
      have h1 : (w.applyErrors (e :: rest)).1
          = { e with whitelisted := true } :: (w.applyErrors rest).1 := by
        simp [Whitelist.applyErrors, hc]
      have h2 : (w.applyErrors (e :: rest)).2 = (w.applyErrors rest).2 + 1 := by
        simp [Whitelist.applyErrors, hc]
      rw [h1, h2, List.countP_cons, List.countP_cons]
      simp [hw]
      omega

/-- A second pass of `Whitelist.applyErrors` over its own output marks nothing:
entries it marked are already whitelisted, and entries it left unmarked did not
match. -/
theorem applyErrors_idem (w : Whitelist) (l : List PageError) :
    w.applyErrors (w.applyErrors l).1 = ((w.applyErrors l).1, 0) := by
  induction l with
  | nil => rfl
  | cons e rest ih =>
    cases hc : (!e.whitelisted && w.is_whitelisted e.message) with
    | false =>
      have h1 : (w.applyErrors (e :: rest)).1 = e :: (w.applyErrors rest).1 := by
        simp [Whitelist.applyErrors, hc]
      have h2 : w.applyErrors (e :: (w.applyErrors rest).1)
          = (e :: (w.applyErrors ((w.applyErrors rest).1)).1,
             (w.applyErrors ((w.applyErrors rest).1)).2) := by
        simp [Whitelist.applyErrors, hc]
      rw [h1, h2, ih]
    | true =>
      have h1 : (w.applyErrors (e :: rest)).1
          = { e with whitelisted := true } :: (w.applyErrors rest).1 := by
        simp [Whitelist.applyErrors, hc]
      have hc2 : (!({ e with whitelisted := true } : PageError).whitelisted
          && w.is_whitelisted ({ e with whitelisted := true } : PageError).message) = false := rfl
      have h2 : w.applyErrors ({ e with whitelisted := true } :: (w.applyErrors rest).1)
          = ({ e with whitelisted := true } :: (w.applyErrors ((w.applyErrors rest).1)).1,
             (w.applyErrors ((w.applyErrors rest).1)).2) := by
        simp [Whitelist.applyErrors, hc2]
      rw [h1, h2, ih]

/-- Claim C10: `Whitelist.apply` is monotone and idempotent on a `ScanResult`:
it only ever sets an entry's `whitelisted` flag from false to true and changes
nothing else, it returns exactly the number of entries newly marked in that
call, and a second application with the same patterns returns 0 and leaves the
result unchanged. -/
theorem whitelist_apply_monotone_idempotent (w : Whitelist) (r : ScanResult) :
    List.Forall₂
      (fun a b => b = a ∨ (a.whitelisted = false ∧ b = { a with whitelisted := true }))
      r.errors ((w.apply r).1).errors
    ∧ (w.apply r).2 + r.errors.countP (fun e => e.whitelisted)
        = ((w.apply r).1).errors.countP (fun e => e.whitelisted)
    ∧ w.apply ((w.apply r).1) = ((w.apply r).1, 0) := by
  refine ⟨applyErrors_pointwise w r.errors, applyErrors_count w r.errors, ?_⟩
  simp [Whitelist.apply, applyErrors_idem]

/-- A kind is outside `_ERROR_TYPES` exactly when it is `CONSOLE_WARNING`. -/
theorem inErrorTypes_eq_false_iff (t : ErrorType) :
    inErrorTypes t = false ↔ t = .CONSOLE_WARNING := by
  cases t <;> decide

/-- On a list whose entries are all non-whitelisted, conjoining the
`!e.whitelisted` test with any predicate does not change `List.any`. -/
theorem any_and_unflagged (l : List PageError) (h : ∀ e ∈ l, e.whitelisted = false)
    (p : PageError → Bool) :
    (l.any fun e => p e && !e.whitelisted) = l.any p := by
  induction l with
  | nil => rfl
  | cons e t ih =>
    have he := h e (List.mem_cons_self _ _)
    have ht := ih (fun x hx => h x (List.mem_cons_of_mem _ hx))
    simp [List.any_cons, he, ht]

/-- On a list whose entries are all non-whitelisted, `has_issues`-style
scanning reduces to non-emptiness. -/
theorem any_unflagged (l : List PageError) (h : ∀ e ∈ l, e.whitelisted = false) :
    (l.any fun e => !e.whitelisted) = !l.isEmpty := by
  cases l with
  | nil => rfl
  | cons e t => simp [h e (List.mem_cons_self _ _)]

/-- When no entry of a list has a real error kind, every entry is a warning,
so the warning scan reduces to non-emptiness. -/
theorem any_warning_of_no_error (l : List PageError)
    (h : (l.any fun e => inErrorTypes e.error_type) = false) :
    (l.any fun e => e.error_type == .CONSOLE_WARNING) = !l.isEmpty := by
  cases l with
  | nil => rfl
  | cons e t =>
    simp only [List.any_cons, Bool.or_eq_false_iff] at h
    have he : e.error_type = .CONSOLE_WARNING := (inErrorTypes_eq_false_iff _).mp h.1
    simp [he]

/-- Claim C2 (amended): on any error list in which no entry carries the
whitelisted flag — which is the case for every entry the capture handlers
append — the status derived at the end of a completed attempt is the pure
function of the deduplicated error list that the spec describes: `ERROR` if a
non-warning kind is present, else `WARNING` if some entry is present, else
`OK`.  In general the derivation additionally ignores whitelisted entries
(see the counterexample `status_reads_suppression_flag`). -/
theorem status_pure_on_unflagged_errors (r : ScanResult)
    (hall : ∀ e ∈ r.errors, e.whitelisted = false) :
    (finalize_status r).status = specDeriveStatus r.errors := by
  have hE : r.has_errors = r.errors.any (fun e => inErrorTypes e.error_type) :=
    any_and_unflagged r.errors hall (fun e => inErrorTypes e.error_type)
  have hI : r.has_issues = !r.errors.isEmpty := any_unflagged r.errors hall
  cases hA : r.errors.any (fun e => inErrorTypes e.error_type) with
  | true =>
    rw [hA] at hE
    simp [finalize_status, specDeriveStatus, hE, hA]
  | false =>
    rw [hA] at hE
    have hW := any_warning_of_no_error r.errors hA
    cases hl : r.errors.isEmpty with
    | true =>
      rw [hl] at hI hW
      simp [finalize_status, specDeriveStatus, hE, hI, hA, hW]
    | false =>
      rw [hl] at hI hW
      simp [finalize_status, specDeriveStatus, hE, hI, hA, hW]

/-- Counterexample to claim C2 as stated: the derivation is not independent of
the suppressed/whitelisted flag — a list holding one whitelisted
`CONSOLE_ERROR` entry derives `OK`, while a pure function of the deduplicated
error list ignoring the flag (the spec's wording) would give `ERROR`. -/
theorem status_reads_suppression_flag :
    (finalize_status
        { url := "u",
          errors := [{ error_type := .CONSOLE_ERROR, message := "x", whitelisted := true }] }).status
      = PageStatus.OK
    ∧ specDeriveStatus
        [{ error_type := .CONSOLE_ERROR, message := "x", whitelisted := true }]
      = PageStatus.ERROR := by
  exact ⟨rfl, rfl⟩

/-- Witness for `status_pure_on_unflagged_errors` at a concrete result holding
one non-whitelisted console error. -/
theorem status_pure_on_unflagged_errors_witness :
    (finalize_status
        { url := "u", errors := [{ error_type := .CONSOLE_ERROR, message := "x" }] }).status
      = specDeriveStatus [{ error_type := .CONSOLE_ERROR, message := "x" }] :=
  status_pure_on_unflagged_errors
    { url := "u", errors := [{ error_type := .CONSOLE_ERROR, message := "x" }] }
    (by decide)

/-- The deduplication loop only ever drops entries: its output is a sublist of
its input, so the relative order of kept entries is preserved. -/
theorem dedupAux_sublist (seen : List (ErrorType × String × String))
    (l : List PageError) : List.Sublist (dedupAux seen l) l := by
  induction l generalizing seen with
  | nil => exact List.Sublist.refl []
  | cons e rest ih =>
    by_cases hmem : errKey e ∈ seen
    · simp only [dedupAux]
      rw [if_pos hmem]
      exact (ih seen).cons e
    · simp only [dedupAux]
      rw [if_neg hmem]
      exact (ih (errKey e :: seen)).cons₂ e

/-- No entry kept by the deduplication loop has a key that was already in the
`seen` set when the loop started. -/
theorem dedupAux_key_not_seen (seen : List (ErrorType × String × String))
    (l : List PageError) : ∀ e ∈ dedupAux seen l, errKey e ∉ seen := by
  induction l generalizing seen with
  | nil => intro e he; simp [dedupAux] at he
  | cons a rest ih =>
    intro e he
    by_cases hmem : errKey a ∈ seen
    · simp only [dedupAux] at he
      rw [if_pos hmem] at he
      exact ih seen e he
    · simp only [dedupAux] at he
      rw [if_neg hmem] at he
      rcases List.mem_cons.mp he with rfl | h
      · exact hmem
      · exact fun hk => ih (errKey a :: seen) e h (List.mem_cons_of_mem _ hk)

/-- The entries kept by the deduplication loop have pairwise distinct keys. -/
theorem dedupAux_pairwise (seen : List (ErrorType × String × String))
    (l : List PageError) :
    (dedupAux seen l).Pairwise (fun a b => errKey a ≠ errKey b) := by
  induction l generalizing seen with
  | nil => exact List.Pairwise.nil
  | cons a rest ih =>
    by_cases hmem : errKey a ∈ seen
    · simp only [dedupAux]
      rw [if_pos hmem]
      exact ih seen
    · simp only [dedupAux]
      rw [if_neg hmem]
      refine List.Pairwise.cons ?_ (ih (errKey a :: seen))
      intro b hb hEq
      exact dedupAux_key_not_seen (errKey a :: seen) rest b hb
        (hEq ▸ List.mem_cons_self _ _)

/-- Every key of the input whose key is not initially `seen` stays represented
in the deduplicated output. -/
theorem dedupAux_complete (seen : List (ErrorType × String × String))
    (l : List PageError) :
    ∀ e ∈ l, errKey e ∉ seen → ∃ e' ∈ dedupAux seen l, errKey e' = errKey e := by
  induction l generalizing seen with
  | nil => intro e he; simp at he
  | cons a rest ih =>
    intro e he hn
    rcases List.mem_cons.mp he with rfl | hrest
    · simp only [dedupAux]
      rw [if_neg hn]
      exact ⟨e, List.mem_cons_self _ _, rfl⟩
    · by_cases hmem : errKey a ∈ seen
      · simp only [dedupAux]
        rw [if_pos hmem]
        exact ih seen e hrest hn
      · simp only [dedupAux]
        rw [if_neg hmem]
        by_cases hkey : errKey e = errKey a
        · exact ⟨a, List.mem_cons_self _ _, hkey.symm⟩
        · have hn2 : errKey e ∉ errKey a :: seen := by
            intro hk
            rcases List.mem_cons.mp hk with hk1 | hk2
            · exact hkey hk1
            · exact hn hk2
          rcases ih (errKey a :: seen) e hrest hn2 with ⟨e', he', hk⟩
          exact ⟨e', List.mem_cons_of_mem _ he', hk⟩

/-- Every kept entry is the first entry of the input bearing its key. -/
theorem dedupAux_keeps_first (seen : List (ErrorType × String × String))
    (l : List PageError) :
    ∀ e' ∈ dedupAux seen l,
      l.find? (fun x => decide (errKey x = errKey e')) = some e' := by
  induction l generalizing seen with
  | nil => intro e' he'; simp [dedupAux] at he'
  | cons a rest ih =>
    intro e' he'
    by_cases hmem : errKey a ∈ seen
    · simp only [dedupAux] at he'
      rw [if_pos hmem] at he'
      have hne : errKey a ≠ errKey e' := by
        intro h
        exact dedupAux_key_not_seen seen rest e' he' (h ▸ hmem)
      rw [List.find?_cons_of_neg _ (by simp [hne])]
      exact ih seen e' he'
    · simp only [dedupAux] at he'
      rw [if_neg hmem] at he'
      rcases List.mem_cons.mp he' with rfl | hr
      · rw [List.find?_cons_of_pos _ (by simp)]
      · have hb := dedupAux_key_not_seen (errKey a :: seen) rest e' hr
        have hne : errKey a ≠ errKey e' := fun h => hb (h ▸ List.mem_cons_self _ _)
        rw [List.find?_cons_of_neg _ (by simp [hne])]
        exact ih (errKey a :: seen) e' hr

/-- Claim C3: the deduplication performed at the end of a visit attempt keeps,
for each `(kind, message, source)` triple, exactly the first entry bearing it:
the output is an order-preserving sublist of the input, kept entries have
pairwise distinct keys, every input triple remains represented, and each kept
entry is the first input entry with its triple. -/
theorem dedup_keeps_first_occurrence (l : List PageError) :
    List.Sublist (dedupErrors l) l
    ∧ (dedupErrors l).Pairwise (fun a b => errKey a ≠ errKey b)
    ∧ (∀ e ∈ l, ∃ e' ∈ dedupErrors l, errKey e' = errKey e)
    ∧ (∀ e' ∈ dedupErrors l,
        l.find? (fun x => decide (errKey x = errKey e')) = some e') := by
  refine ⟨dedupAux_sublist [] l, dedupAux_pairwise [] l, ?_, ?_⟩
  · intro e he
    exact dedupAux_complete [] l e he (by simp)
  · intro e' he'
    exact dedupAux_keeps_first [] l e' he'

/-- Witness for `dedup_keeps_first_occurrence` on a concrete list carrying a
duplicated `(kind, message, source)` triple. -/
theorem dedup_keeps_first_occurrence_witness :
    List.Sublist
      (dedupErrors
        [{ error_type := .CONSOLE_ERROR, message := "m", source := "s" },
         { error_type := .HTTP_404, message := "HTTP 404: u", source := "u" },
         { error_type := .CONSOLE_ERROR, message := "m", source := "s" }])
      [{ error_type := .CONSOLE_ERROR, message := "m", source := "s" },
       { error_type := .HTTP_404, message := "HTTP 404: u", source := "u" },
       { error_type := .CONSOLE_ERROR, message := "m", source := "s" }]
    ∧ List.find?
        (fun x => decide (errKey x
          = errKey { error_type := .CONSOLE_ERROR, message := "m", source := "s" }))
        [{ error_type := .CONSOLE_ERROR, message := "m", source := "s" },
         { error_type := .HTTP_404, message := "HTTP 404: u", source := "u" },
         { error_type := .CONSOLE_ERROR, message := "m", source := "s" }]
      = some { error_type := .CONSOLE_ERROR, message := "m", source := "s" } :=
  ⟨(dedup_keeps_first_occurrence _).1,
   (dedup_keeps_first_occurrence
      [{ error_type := .CONSOLE_ERROR, message := "m", source := "s" },
       { error_type := .HTTP_404, message := "HTTP 404: u", source := "u" },
       { error_type := .CONSOLE_ERROR, message := "m", source := "s" }]).2.2.2
     { error_type := .CONSOLE_ERROR, message := "m", source := "s" } (by decide)⟩

/-- Every character list begins with the empty list. -/
theorem charsStartWith_nil (l : List Char) : charsStartWith l [] = true := by
  cases l <;> rfl

/-- A character list obtained by extending `p` on the right begins with `p`. -/
theorem charsStartWith_append (p r : List Char) :
    charsStartWith (p ++ r) p = true := by
  induction p with
  | nil => exact charsStartWith_nil r
  | cons c cs ih => simp [charsStartWith, ih]

/-- A string obtained by extending `p` on the right starts with `p`. -/
theorem strStartsWith_append (p suffix : String) :
    strStartsWith (p ++ suffix) p = true := by
  unfold strStartsWith
  exact charsStartWith_append p.data suffix.data

/-- Claim C6: a console message whose text restates a resource load failure
(text beginning with `Failed to load resource:`) never yields a console entry,
whatever the capture level; and an attempt that delivers such a console event
together with an HTTP 404 response event for the same resource captures, after
deduplication, exactly one `HTTP_404` entry for that resource and zero
`CONSOLE_ERROR` entries. -/
theorem resource_failure_console_discarded (captured_types : List String)
    (console_level msg_type suffix location_url url : String)
    (location_line : Nat) :
    on_console captured_types msg_type ("Failed to load resource:" ++ suffix)
        location_url location_line = none
    ∧ dedupErrors (capturedEntries captured_types console_level
        [.console msg_type ("Failed to load resource:" ++ suffix) location_url location_line,
         .response 404 url])
      = [{ error_type := .HTTP_404, message := "HTTP 404: " ++ url, source := url }]
    ∧ (dedupErrors (capturedEntries captured_types console_level
        [.console msg_type ("Failed to load resource:" ++ suffix) location_url location_line,
         .response 404 url])).countP
          (fun e => e.error_type == .HTTP_404 && e.source == url) = 1
    ∧ (dedupErrors (capturedEntries captured_types console_level
        [.console msg_type ("Failed to load resource:" ++ suffix) location_url location_line,
         .response 404 url])).countP
          (fun e => e.error_type == .CONSOLE_ERROR) = 0 := by
  have hskip : on_console captured_types msg_type ("Failed to load resource:" ++ suffix)
      location_url location_line = none := by
    simp [on_console, strStartsWith_append]
  have h404 : on_response 404 url
      = some { error_type := .HTTP_404, message := "HTTP 404: " ++ url, source := url } := by
    simp [on_response]
  have hlist : dedupErrors (capturedEntries captured_types console_level
      [.console msg_type ("Failed to load resource:" ++ suffix) location_url location_line,
       .response 404 url])
      = [{ error_type := .HTTP_404, message := "HTTP 404: " ++ url, source := url }] := by
    simp [capturedEntries, processEvent, hskip, h404, dedupErrors, dedupAux]
  refine ⟨hskip, hlist, ?_, ?_⟩ <;> rw [hlist] <;> simp

/-- Status finalization does not touch the error list. -/
theorem finalize_status_errors (r : ScanResult) :
    (finalize_status r).errors = r.errors := by
  unfold finalize_status
  split
  · rfl
  · split <;> rfl

/-- Status finalization does not touch the retry counter. -/
theorem finalize_status_retry_count (r : ScanResult) :
    (finalize_status r).retry_count = r.retry_count := by
  unfold finalize_status
  split
  · rfl
  · split <;> rfl

/-- A completed visit attempt leaves the retry counter unchanged. -/
theorem do_scan_page_retry_count (ct : List String) (cl : String)
    (evs : List CaptureEvent) (hs lt : Nat) (r : ScanResult) :
    (do_scan_page ct cl evs hs lt r).retry_count = r.retry_count := by
  unfold do_scan_page
  rw [finalize_status_retry_count]

/-- The error list after a completed visit attempt: the deduplicated
concatenation of what was already on the item and what the handlers appended. -/
theorem do_scan_page_errors (ct : List String) (cl : String)
    (evs : List CaptureEvent) (hs lt : Nat) (r : ScanResult) :
    (do_scan_page ct cl evs hs lt r).errors
      = dedupErrors (r.errors ++ capturedEntries ct cl evs) := by
  unfold do_scan_page
  rw [finalize_status_errors]

/-- Claim C1: a work item whose every visit attempt raises a failure goes
through exactly `MAX_RETRIES` (= 3) attempts and is left terminal with
`retry_count = MAX_RETRIES`; the terminal status is `TIMEOUT` when the last
failure message contains `timeout` case-insensitively, else `ERROR`. -/
theorem retry_exhaustion (ct : List String) (cl : String)
    (outcomes : Nat → AttemptOutcome) (r : ScanResult)
    (hf : ∀ i, i < MAX_RETRIES → ∃ evs msg, outcomes i = .fail evs msg) :
    (scan_single_page ct cl outcomes r).2 = MAX_RETRIES
    ∧ ((scan_single_page ct cl outcomes r).1).retry_count = MAX_RETRIES
    ∧ (∀ evs msg, outcomes (MAX_RETRIES - 1) = .fail evs msg →
        ((scan_single_page ct cl outcomes r).1).status
          = if strContainsSub (strLower msg) "timeout" then PageStatus.TIMEOUT
            else PageStatus.ERROR)
    ∧ (((scan_single_page ct cl outcomes r).1).status = PageStatus.TIMEOUT
        ∨ ((scan_single_page ct cl outcomes r).1).status = PageStatus.ERROR) := by
  obtain ⟨e0, m0, h0⟩ := hf 0 (by decide)
  obtain ⟨e1, m1, h1⟩ := hf 1 (by decide)
  obtain ⟨e2, m2, h2⟩ := hf 2 (by decide)
  have hbase : scan_single_page ct cl outcomes r
      = ({ do_scan_page_failed ct cl e2
             { do_scan_page_failed ct cl e1
                 { do_scan_page_failed ct cl e0 r with retry_count := 1 }
               with retry_count := 2 } with
           retry_count := 3
           status := if strContainsSub (strLower m2) "timeout" then PageStatus.TIMEOUT
             else PageStatus.ERROR }, 3) := by
    unfold scan_single_page
    simp [scanLoopGo, h0, h1, h2, MAX_RETRIES]
  refine ⟨?_, ?_, ?_, ?_⟩
  · rw [hbase]
    rfl
  · rw [hbase]
    rfl
  · intro evs msg hmsg
    rw [show MAX_RETRIES - 1 = 2 from rfl] at hmsg
    rw [h2] at hmsg
    injection hmsg with hE hM
    subst hM
    rw [hbase]
  · rw [hbase]
    cases hb : strContainsSub (strLower m2) "timeout" <;> simp [hb]

/-- Witness for `retry_exhaustion`: a page whose three attempts all fail with
a timeout message ends `TIMEOUT` after three attempts with `retry_count = 3`. -/
theorem retry_exhaustion_witness :
    (scan_single_page ["error"] "warn"
        (fun _ => .fail [] "Page.goto: Timeout 30000ms exceeded") { url := "u" }).2
      = MAX_RETRIES
    ∧ ((scan_single_page ["error"] "warn"
        (fun _ => .fail [] "Page.goto: Timeout 30000ms exceeded") { url := "u" }).1).retry_count
      = MAX_RETRIES
    ∧ ((scan_single_page ["error"] "warn"
        (fun _ => .fail [] "Page.goto: Timeout 30000ms exceeded") { url := "u" }).1).status
      = PageStatus.TIMEOUT := by
  have h := retry_exhaustion ["error"] "warn"
      (fun _ => .fail [] "Page.goto: Timeout 30000ms exceeded") { url := "u" }
      (fun i _ => ⟨[], "Page.goto: Timeout 30000ms exceeded", rfl⟩)
  refine ⟨h.1, h.2.1, ?_⟩
  have h3 := h.2.2.1 [] "Page.goto: Timeout 30000ms exceeded" rfl
  rw [h3]
  decide

/-- Counterexample to claim C8 as stated: when every attempt fails,
`retry_count` ends at 3 while 3 attempts were performed, so it is not the
number of attempts beyond the first (which would be 2). -/
theorem retry_count_not_attempts_minus_one :
    ((scan_single_page [] "warn" (fun _ => .fail [] "x") { url := "u" }).1).retry_count = 3
    ∧ (scan_single_page [] "warn" (fun _ => .fail [] "x") { url := "u" }).2 = 3
    ∧ ¬ (((scan_single_page [] "warn" (fun _ => .fail [] "x") { url := "u" }).1).retry_count
          = (scan_single_page [] "warn" (fun _ => .fail [] "x") { url := "u" }).2 - 1) := by
  decide

/-- Claim C8 (amended): after the retry pipeline ends, `retry_count` equals the
number of failed attempts — total attempts minus one when the final attempt
completed, and total attempts (= `MAX_RETRIES`) when every attempt failed. -/
theorem retry_count_counts_failed_attempts (ct : List String) (cl : String)
    (outcomes : Nat → AttemptOutcome) (r : ScanResult) (hr : r.retry_count = 0) :
    ((∃ evs hs lt, outcomes ((scan_single_page ct cl outcomes r).2 - 1) = .ok evs hs lt) →
        ((scan_single_page ct cl outcomes r).1).retry_count
          = (scan_single_page ct cl outcomes r).2 - 1)
    ∧ ((∃ evs msg, outcomes ((scan_single_page ct cl outcomes r).2 - 1) = .fail evs msg) →
        ((scan_single_page ct cl outcomes r).1).retry_count
            = (scan_single_page ct cl outcomes r).2
          ∧ (scan_single_page ct cl outcomes r).2 = MAX_RETRIES) := by
  cases ho0 : outcomes 0 with
  | ok e0 s0 l0 =>
    have hrun : scan_single_page ct cl outcomes r = (do_scan_page ct cl e0 s0 l0 r, 1) := by
      unfold scan_single_page
      simp [scanLoopGo, ho0, MAX_RETRIES]
    constructor
    · intro _
      rw [hrun]
      simp [do_scan_page_retry_count, hr]
    · rintro ⟨evs, msg, hmsg⟩
      rw [hrun] at hmsg
      simp [ho0] at hmsg
  | fail e0 m0 =>
    cases ho1 : outcomes 1 with
    | ok e1 s1 l1 =>
      have hrun : scan_single_page ct cl outcomes r
          = (do_scan_page ct cl e1 s1 l1
               { do_scan_page_failed ct cl e0 r with retry_count := 1 }, 2) := by
        unfold scan_single_page
        simp [scanLoopGo, ho0, ho1, MAX_RETRIES]
      constructor
      · intro _
        rw [hrun]
        simp [do_scan_page_retry_count]
      · rintro ⟨evs, msg, hmsg⟩
        rw [hrun] at hmsg
        simp [ho1] at hmsg
    | fail e1 m1 =>
      cases ho2 : outcomes 2 with
      | ok e2 s2 l2 =>
        have hrun : scan_single_page ct cl outcomes r
            = (do_scan_page ct cl e2 s2 l2
                 { do_scan_page_failed ct cl e1
                     { do_scan_page_failed ct cl e0 r with retry_count := 1 }
                   with retry_count := 2 }, 3) := by
          unfold scan_single_page
          simp [scanLoopGo, ho0, ho1, ho2, MAX_RETRIES]
        constructor
        · intro _
          rw [hrun]
          simp [do_scan_page_retry_count]
        · rintro ⟨evs, msg, hmsg⟩
          rw [hrun] at hmsg
          simp [ho2] at hmsg
      | fail e2 m2 =>
        have hrun : scan_single_page ct cl outcomes r
            = ({ do_scan_page_failed ct cl e2
                   { do_scan_page_failed ct cl e1
                       { do_scan_page_failed ct cl e0 r with retry_count := 1 }
                     with retry_count := 2 } with
                 retry_count := 3
                 status := if strContainsSub (strLower m2) "timeout" then PageStatus.TIMEOUT
                   else PageStatus.ERROR }, 3) := by
          unfold scan_single_page
          simp [scanLoopGo, ho0, ho1, ho2, MAX_RETRIES]
        constructor
        · rintro ⟨evs, hs, lt, hmsg⟩
          rw [hrun] at hmsg
          simp [ho2] at hmsg
        · intro _
          rw [hrun]
          exact ⟨rfl, rfl⟩

/-- Witness for `retry_count_counts_failed_attempts`: one failed attempt
followed by a completed one ends with `retry_count = 1` after 2 attempts. -/
theorem retry_count_counts_failed_attempts_witness :
    ((scan_single_page [] "warn"
        (fun i => if i = 0 then AttemptOutcome.fail [] "a" else .ok [] 200 5)
        { url := "u" }).1).retry_count
      = (scan_single_page [] "warn"
          (fun i => if i = 0 then AttemptOutcome.fail [] "a" else .ok [] 200 5)
          { url := "u" }).2 - 1 :=
  (retry_count_counts_failed_attempts [] "warn"
      (fun i => if i = 0 then AttemptOutcome.fail [] "a" else .ok [] 200 5)
      { url := "u" } rfl).1
    ⟨[], 200, 5, rfl⟩

/-- Counterexample to claim C7 as stated: an attempt abandoned by a failure
does change the item's error list — a console error captured before the
failure of attempt 0 is still on the item after the pipeline ends, because the
handlers append directly to `result.errors` rather than to a scratch buffer. -/
theorem failed_attempt_changes_error_list :
    ((scan_single_page ["error"] "warn"
        (fun i => AttemptOutcome.fail
            (if i = 0 then [CaptureEvent.console "error" "boom" "s" 1] else []) "x")
        { url := "u" }).1).errors
      = [{ error_type := .CONSOLE_ERROR, message := "boom", source := "s",
           line_number := 1 }]
    ∧ ((scan_single_page ["error"] "warn"
        (fun i => AttemptOutcome.fail
            (if i = 0 then [CaptureEvent.console "error" "boom" "s" 1] else []) "x")
        { url := "u" }).1).errors ≠ [] := by
  decide

/-- Claim C7 (amended): capture handlers write directly to the item's error
list, so entries captured during a failed attempt persist; after a failed
attempt followed by a completed one, the item carries the deduplication of its
previous entries, the failed attempt's entries and the completed attempt's
entries. -/
theorem entries_from_failed_attempt_persist (ct : List String) (cl : String)
    (evs0 evs1 : List CaptureEvent) (msg : String) (hs lt : Nat) (r : ScanResult) :
    ((scan_single_page ct cl
        (fun i => if i = 0 then .fail evs0 msg else .ok evs1 hs lt) r).1).errors
      = dedupErrors (r.errors ++ capturedEntries ct cl evs0
          ++ capturedEntries ct cl evs1) := by
  unfold scan_single_page
  simp [scanLoopGo, MAX_RETRIES, do_scan_page_errors, do_scan_page_failed,
    List.append_assoc]

/-- Counting over a one-task decomposition of the task list. -/
theorem countP_decomp (p : SchedTask → Bool) (pre post : List SchedTask)
    (t : SchedTask) :
    (pre ++ t :: post).countP p
      = pre.countP p + post.countP p + (if p t then 1 else 0) := by
  simp [List.countP_append, List.countP_cons]
  omega

/-- A replicated element not satisfying a predicate contributes no count. -/
theorem countP_replicate_false {α : Type} (p : α → Bool) (a : α)
    (hp : p a = false) (m : Nat) : (List.replicate m a).countP p = 0 := by
  induction m with
  | zero => rfl
  | succ k ih => simp [List.replicate_succ, List.countP_cons, hp, ih]

/-- `runningCount` over a one-task decomposition. -/
theorem runningCount_decomp (pre post : List SchedTask) (t : SchedTask) :
    runningCount (pre ++ t :: post)
      = runningCount pre + runningCount post
        + (if t.pc.holdsSem then 1 else 0) :=
  countP_decomp _ pre post t

/-- `strayCount` over a one-task decomposition. -/
theorem strayCount_decomp (pre post : List SchedTask) (t : SchedTask) :
    strayCount (pre ++ t :: post)
      = strayCount pre + strayCount post
        + (if t.status == .SCANNING && !t.pc.holdsSem then 1 else 0) :=
  countP_decomp _ pre post t

/-- `scanningCount` over a one-task decomposition. -/
theorem scanningCount_decomp (pre post : List SchedTask) (t : SchedTask) :
    scanningCount (pre ++ t :: post)
      = scanningCount pre + scanningCount post
        + (if t.status == .SCANNING then 1 else 0) :=
  countP_decomp _ pre post t

/-- Every scheduler step preserves the invariant: pipeline occupancy plus free
semaphore slots stays `conc`, and no task outside the pipeline holds
`SCANNING` status. -/
theorem schedInv_step {conc : Nat} {s s' : SchedState} (h : SchedStep s s')
    (hinv : SchedInv conc s) : SchedInv conc s' := by
  obtain ⟨h1, h2⟩ := hinv
  cases h with
  | cancel ts c sem => exact ⟨h1, h2⟩
  | start pre post st sem =>
    simp [SchedInv, runningCount_decomp, strayCount_decomp,
      TaskPC.holdsSem] at h1 h2 ⊢
    exact ⟨by omega, by tauto⟩
  | startCancelled pre post st sem =>
    simp [SchedInv, runningCount_decomp, strayCount_decomp,
      TaskPC.holdsSem] at h1 h2 ⊢
    exact ⟨by omega, by tauto⟩
  | acquire pre post st sem =>
    simp [SchedInv, runningCount_decomp, strayCount_decomp,
      TaskPC.holdsSem] at h1 h2 ⊢
    exact ⟨by omega, by tauto⟩
  | acquireCancelled pre post st sem =>
    simp [SchedInv, runningCount_decomp, strayCount_decomp,
      TaskPC.holdsSem] at h1 h2 ⊢
    exact ⟨by omega, by tauto⟩
  | retryNext pre post st k c sem hk =>
    simp [SchedInv, runningCount_decomp, strayCount_decomp,
      TaskPC.holdsSem] at h1 h2 ⊢
    exact ⟨by omega, by tauto⟩
  | finishAttempt pre post st k c sem fstat hterm =>
    rcases hterm with h | h | h <;> subst h <;>
      simp [SchedInv, runningCount_decomp, strayCount_decomp,
        TaskPC.holdsSem] at h1 h2 ⊢ <;> exact ⟨by omega, by tauto⟩
  | finishExhausted pre post st c sem fstat hterm =>
    rcases hterm with h | h <;> subst h <;>
      simp [SchedInv, runningCount_decomp, strayCount_decomp,
        TaskPC.holdsSem] at h1 h2 ⊢ <;> exact ⟨by omega, by tauto⟩

/-- Every state reachable by a run of `Scanner.scan_urls` satisfies the
scheduler invariant. -/
theorem reach_schedInv (conc n : Nat) (s : SchedState) (h : Reach conc n s) :
    SchedInv conc s := by
  unfold Reach at h
  induction h with
  | refl =>
    constructor
    · unfold runningCount initState
      rw [countP_replicate_false _ _ rfl]
      simp
    · unfold strayCount initState
      rw [countP_replicate_false _ _ rfl]
  | tail hsteps hstep ih => exact schedInv_step hstep ih

/-- Pointwise bound: the scanning tasks are among the pipeline tasks and the
stray tasks. -/
theorem scanning_le_running_add_stray (ts : List SchedTask) :
    scanningCount ts ≤ runningCount ts + strayCount ts := by
  induction ts with
  | nil => simp [scanningCount, runningCount, strayCount]
  | cons t rest ih =>
    unfold scanningCount runningCount strayCount at ih ⊢
    simp only [List.countP_cons]
    cases hs : (t.status == PageStatus.SCANNING) <;>
      cases hh : t.pc.holdsSem <;> simp [hs, hh] <;> omega

/-- Claim C5: in every reachable state of a run, at most `conc` (the
configured concurrency) work items simultaneously hold `SCANNING` status. -/
theorem concurrency_bound (conc n : Nat) (s : SchedState) (h : Reach conc n s) :
    scanningCount s.tasks ≤ conc := by
  obtain ⟨h1, h2⟩ := reach_schedInv conc n s h
  have h3 := scanning_le_running_add_stray s.tasks
  omega

/-- Witness for `concurrency_bound` at the initial state of a run with
concurrency 1 over 2 items. -/
theorem concurrency_bound_witness : scanningCount (initState 1 2).tasks ≤ 1 :=
  concurrency_bound 1 2 (initState 1 2) Relation.ReflTransGen.refl

/-- Counterexample to claim C4 as stated: a state with the cancellation flag
set and one item in flight on attempt 0 is reachable, and from it the
scheduler still takes the step that starts retry attempt 1 — the retry loop of
`_scan_single_page` contains no cancellation check, so an in-flight item does
not stop at its current attempt. -/
theorem retry_starts_after_cancel :
    Reach 1 1 ⟨[⟨.running 0, .SCANNING⟩], true, 0⟩
    ∧ SchedStep ⟨[⟨.running 0, .SCANNING⟩], true, 0⟩
        ⟨[⟨.running 1, .SCANNING⟩], true, 0⟩ := by
  constructor
  · have s1 : SchedStep (initState 1 1) ⟨[⟨.waiting, .PENDING⟩], false, 1⟩ := by
      have h := SchedStep.start [] [] PageStatus.PENDING 1
      simpa [initState] using h
    have s2 : SchedStep ⟨[⟨.waiting, .PENDING⟩], false, 1⟩
        ⟨[⟨.running 0, .SCANNING⟩], false, 0⟩ := by
      have h := SchedStep.acquire [] [] PageStatus.PENDING 0
      simpa using h
    have s3 : SchedStep ⟨[⟨.running 0, .SCANNING⟩], false, 0⟩
        ⟨[⟨.running 0, .SCANNING⟩], true, 0⟩ :=
      SchedStep.cancel [⟨.running 0, .SCANNING⟩] false 0
    exact Relation.ReflTransGen.tail
      (Relation.ReflTransGen.tail
        (Relation.ReflTransGen.tail Relation.ReflTransGen.refl s1) s2) s3
  · have h := SchedStep.retryNext [] [] PageStatus.SCANNING 0 true 0 (by decide)
    simpa using h

/-- Claim C4 (amended): after the cancellation flag is set, no scheduler step
lets a new work item reach `SCANNING` — the number of `SCANNING` items never
increases — while an item already in flight continues its retry pipeline (the
counterexample `retry_starts_after_cancel` shows new retry attempts still
start after cancellation). -/
theorem no_new_scanning_after_cancel (s s' : SchedState)
    (hc : s.cancelled = true) (h : SchedStep s s') :
    scanningCount s'.tasks ≤ scanningCount s.tasks := by
  cases h with
  | cancel ts c sem => exact Nat.le_refl _
  | start pre post st sem => simp at hc
  | startCancelled pre post st sem =>
    unfold scanningCount
    rw [countP_decomp, countP_decomp]
  | acquire pre post st sem => simp at hc
  | acquireCancelled pre post st sem =>
    unfold scanningCount
    rw [countP_decomp, countP_decomp]
  | retryNext pre post st k c sem hk =>
    unfold scanningCount
    rw [countP_decomp, countP_decomp]
  | finishAttempt pre post st k c sem fstat hterm =>
    unfold scanningCount
    rw [countP_decomp, countP_decomp]
    rcases hterm with h | h | h <;> subst h <;> simp
  | finishExhausted pre post st c sem fstat hterm =>
    unfold scanningCount
    rw [countP_decomp, countP_decomp]
    rcases hterm with h | h <;> subst h <;> simp

/-- Witness for `no_new_scanning_after_cancel` at the concrete cancelled state
with one in-flight task taking its retry step. -/
theorem no_new_scanning_after_cancel_witness :
    scanningCount ((⟨[⟨.running 1, .SCANNING⟩], true, 0⟩ : SchedState).tasks)
      ≤ scanningCount ((⟨[⟨.running 0, .SCANNING⟩], true, 0⟩ : SchedState).tasks) :=
  no_new_scanning_after_cancel ⟨[⟨.running 0, .SCANNING⟩], true, 0⟩
    ⟨[⟨.running 1, .SCANNING⟩], true, 0⟩ rfl
    (by
      have h := SchedStep.retryNext [] [] PageStatus.SCANNING 0 true 0 (by decide)
      simpa using h)

end ConsoleErrorScanner
